import Mathlib

/-!
A verification development for the CFO Helper repository: a client-side
financial scenario calculator (src/src/App.tsx) and a serverless backend
(Hono app over a key-value store) that persists usage counters, scenario
snapshots and generated reports.

Shallow embedding conventions:
* JavaScript numbers are modelled as rationals; all inputs of interest are
  integers well inside the exactly-representable range, where JS float
  arithmetic for the formulas at hand coincides with rational arithmetic.
* ISO timestamp strings that the server only ever compares through
  `new Date(s).getTime()` are modelled directly by their epoch-millisecond
  value (an integer).
* The key-value store calls (`kv.get`, `kv.set`, `kv.getByKeyStart`) are
  modelled by passing their outcomes (`Except Unit _`) to the handler; a
  `.error` outcome models a thrown store exception, which the surrounding
  `try`/`catch` converts into a 500 response.
* Template-literal interpolation of an integer (as in the report and
  scenario ids) is modelled by `natDecimal`, the decimal rendering of the
  number.
-/

/-- The business parameters held as UI state in App.tsx: four slider values
(`employees`, `marketingBudget`, `productPrice`, `currentCash`) and two
market-data values (`baseCustomerCount`, `fixedMonthlyCosts`). -/
structure ScenarioParams where
  employees : ℚ
  marketingBudget : ℚ
  productPrice : ℚ
  currentCash : ℚ
  baseCustomerCount : ℚ
  fixedMonthlyCosts : ℚ
deriving DecidableEq

/-- App.tsx line 88: `const monthlySalaryCost = employees[0] * 60000`. -/
def monthlySalaryCost (p : ScenarioParams) : ℚ :=
  p.employees * 60000

/-- App.tsx line 89:
`const totalMonthlyBurn = monthlySalaryCost + marketingBudget[0] + fixedMonthlyCosts`. -/
def totalMonthlyBurn (p : ScenarioParams) : ℚ :=
  monthlySalaryCost p + p.marketingBudget + p.fixedMonthlyCosts

/-- App.tsx line 90: `const monthlyRevenue = baseCustomerCount * productPrice[0]`. -/
def monthlyRevenue (p : ScenarioParams) : ℚ :=
  p.baseCustomerCount * p.productPrice

/-- App.tsx line 91: `const netCashFlow = monthlyRevenue - totalMonthlyBurn`. -/
def netCashFlow (p : ScenarioParams) : ℚ :=
  monthlyRevenue p - totalMonthlyBurn p

/-- App.tsx line 92:
`const runwayMonths = totalMonthlyBurn > 0 ? currentCash[0] / totalMonthlyBurn : 999`. -/
def runwayMonths (p : ScenarioParams) : ℚ :=
  if totalMonthlyBurn p > 0 then p.currentCash / totalMonthlyBurn p else 999

/-- App.tsx line 93:
`const breakEvenCustomers = Math.ceil(totalMonthlyBurn / productPrice[0])`. -/
def breakEvenCustomers (p : ScenarioParams) : ℤ :=
  ⌈totalMonthlyBurn p / p.productPrice⌉

/-- The scenario example of the spec: employees=5, marketingBudget=30000,
productPrice=150, currentCash=800000, baseCustomerCount=100,
fixedMonthlyCosts=20000; these are also the initial UI state values. -/
def exampleParams : ScenarioParams :=
  { employees := 5
    marketingBudget := 30000
    productPrice := 150
    currentCash := 800000
    baseCustomerCount := 100
    fixedMonthlyCosts := 20000 }

/-- One data point of the client-side chart projection (App.tsx
`generateProjectionData`): the month label is the template string
`Month ${month}`. -/
structure ClientProjEntry where
  month : String
  cash : ℚ
  revenue : ℚ
  expenses : ℚ
  netFlow : ℚ
deriving DecidableEq

/-- One entry of the server-side projection (`generateProjections` in the
Hono server): the month is kept as a number. -/
structure ServerProjEntry where
  month : ℕ
  cashBalance : ℚ
  revenue : ℚ
  expenses : ℚ
  netFlow : ℚ
deriving DecidableEq

/-- The `metrics` object destructured by the server report helpers
(`generateAIInsights` reads totalMonthlyBurn, monthlyRevenue, runwayMonths,
employees, productPrice; `generateProjections` reads totalMonthlyBurn,
monthlyRevenue, currentCash). -/
structure ReportMetrics where
  totalMonthlyBurn : ℚ
  monthlyRevenue : ℚ
  runwayMonths : ℚ
  employees : ℚ
  productPrice : ℚ
  currentCash : ℚ
deriving DecidableEq

/-- The derived metrics of a parameter vector, packaged the way the server
report helpers consume them. -/
def metricsOf (p : ScenarioParams) : ReportMetrics :=
  { totalMonthlyBurn := totalMonthlyBurn p
    monthlyRevenue := monthlyRevenue p
    runwayMonths := runwayMonths p
    employees := p.employees
    productPrice := p.productPrice
    currentCash := p.currentCash }

/-- Decimal rendering of a natural number: the model of JavaScript template
literal interpolation of an integer (`Date.now()` values, month indices). -/
def natDecimal (n : ℕ) : String :=
  if n = 0 then "0" else String.mk (((Nat.digits 10 n).reverse).map Nat.digitChar)

/-- The loop body of App.tsx `generateProjectionData`, recursing on the
number of remaining months: `cashBalance += netCashFlow` then push
`{month, cash: max(0, cashBalance), revenue, expenses, netFlow}`. -/
def projLoopClient (nf rev burn : ℚ) (cb : ℚ) (month : ℕ) : ℕ → List ClientProjEntry
  | 0 => []
  | k + 1 =>
      { month := "Month " ++ natDecimal month
        cash := max 0 (cb + nf)
        revenue := rev
        expenses := burn
        netFlow := nf } :: projLoopClient nf rev burn (cb + nf) (month + 1) k

/-- App.tsx `generateProjectionData`: 12 iterations starting from
`cashBalance = currentCash`, month counter starting at 1. -/
def generateProjectionData (p : ScenarioParams) : List ClientProjEntry :=
  projLoopClient (netCashFlow p) (monthlyRevenue p) (totalMonthlyBurn p) p.currentCash 1 12

/-- The loop body of the server `generateProjections`:
`cashBalance += (monthlyRevenue - totalMonthlyBurn)` then push
`{month, cashBalance: max(0, cashBalance), revenue, expenses, netFlow}`. -/
def projLoopServer (burn rev : ℚ) (cb : ℚ) (month : ℕ) : ℕ → List ServerProjEntry
  | 0 => []
  | k + 1 =>
      { month := month
        cashBalance := max 0 (cb + (rev - burn))
        revenue := rev
        expenses := burn
        netFlow := rev - burn } :: projLoopServer burn rev (cb + (rev - burn)) (month + 1) k

/-- Server `generateProjections(data)`: 12 iterations over `data.metrics`,
starting from `cashBalance = currentCash`, month counter starting at 1. -/
def generateProjections (m : ReportMetrics) : List ServerProjEntry :=
  projLoopServer m.totalMonthlyBurn m.monthlyRevenue m.currentCash 1 12

/-- One advisory entry produced by the client `getAIRecommendations`
(the `icon` component reference is modelled by its name). -/
structure Recommendation where
  type : String
  icon : String
  title : String
  message : String
  color : String
deriving DecidableEq

/-- App.tsx `getAIRecommendations`: four independent rules, each pushing
zero or one entry, evaluated in source order. -/
def getAIRecommendations (p : ScenarioParams) : List Recommendation :=
  (if runwayMonths p < 3 then
    [{ type := "critical", icon := "AlertTriangle", title := "Critical Cash Situation"
       message := "Immediate action required. Consider reducing costs or raising funds within 60 days."
       color := "text-red-400" }]
   else []) ++
  (if netCashFlow p ≥ 0 then
    [{ type := "positive", icon := "CheckCircle", title := "Profitable Operations"
       message := "Great! Consider reinvesting profits into growth or building reserves."
       color := "text-green-400" }]
   else []) ++
  (if p.employees > 10 ∧ runwayMonths p < 6 then
    [{ type := "warning", icon := "TrendingDown", title := "High Burn from Team Size"
       message := "Consider optimizing team size or increasing revenue to sustain current headcount."
       color := "text-yellow-400" }]
   else []) ++
  (if p.productPrice < 100 ∧ breakEvenCustomers p > 500 then
    [{ type := "opportunity", icon := "TrendingUp", title := "Pricing Opportunity"
       message := "Consider raising prices. Even a 20% increase could significantly improve unit economics."
       color := "text-blue-400" }]
   else [])

/-- One insight entry produced by the server `generateAIInsights`. -/
structure Insight where
  category : String
  type : String
  message : String
deriving DecidableEq

/-- Server `generateAIInsights(data)`: cash-flow rule (always one of two
entries), runway rule (if/else-if), pricing rule, in source order. -/
def generateAIInsights (m : ReportMetrics) : List Insight :=
  (if m.monthlyRevenue > m.totalMonthlyBurn then
    [{ category := "Cash Flow", type := "positive"
       message := "Strong positive cash flow indicates healthy business operations." }]
   else
    [{ category := "Cash Flow", type := "warning"
       message := "Negative cash flow requires immediate attention to extend runway." }]) ++
  (if m.runwayMonths < 6 then
    [{ category := "Runway", type := "critical"
       message := "Critical runway situation. Focus on revenue growth or cost reduction." }]
   else if m.runwayMonths > 18 then
    [{ category := "Runway", type := "opportunity"
       message := "Healthy runway provides opportunity for strategic investments." }]
   else []) ++
  (if m.productPrice < 200 then
    [{ category := "Pricing", type := "opportunity"
       message := "Consider price optimization to improve unit economics." }]
   else [])

/-- The usage counters record stored under key `cfo-helper-usage`.
`lastUpdated` is present only when the record was last written by
POST /usage (the counter updates mutate the fetched object in place and
preserve whatever fields it had; the `|| {scenarios: 0, reports: 0}`
default has no `lastUpdated`). -/
structure UsageCounters where
  scenarios : ℤ
  reports : ℤ
  lastUpdated : Option String
deriving DecidableEq

/-- The default used on a store miss: `{ scenarios: 0, reports: 0 }`. -/
def emptyUsage : UsageCounters :=
  { scenarios := 0, reports := 0, lastUpdated := none }

/-- The request body of POST /usage: `{ scenarios, reports }`. -/
structure UsageBody where
  scenarios : ℤ
  reports : ℤ
deriving DecidableEq

/-- A JSON value, as far as the response bodies of this API need. -/
inductive JVal where
  | jbool : Bool → JVal
  | jnum : ℤ → JVal
  | jstr : String → JVal
deriving DecidableEq

/-- The record POST /usage writes to the store:
`{ scenarios, reports, lastUpdated: new Date().toISOString() }` — a blind
overwrite with the request body values, independent of the stored state. -/
def postUsageStored (b : UsageBody) (now : String) : UsageCounters :=
  { scenarios := b.scenarios, reports := b.reports, lastUpdated := some now }

/-- The success response body of POST /usage:
`c.json({ success: true, scenarios, reports })`. -/
def postUsageResponse (b : UsageBody) : List (String × JVal) :=
  [("success", JVal.jbool true),
   ("scenarios", JVal.jnum b.scenarios),
   ("reports", JVal.jnum b.reports)]

/-- The counter update embedded in POST /scenario:
`usageData = kv.get(...) || {scenarios: 0, reports: 0}; usageData.scenarios += 1`. -/
def scenarioCounterUpdate (st : Option UsageCounters) : UsageCounters :=
  let u := st.getD emptyUsage
  { u with scenarios := u.scenarios + 1 }

/-- The counter update embedded in POST /generate-report:
`usageData.reports += 1` on the fetched-or-default record. -/
def reportCounterUpdate (st : Option UsageCounters) : UsageCounters :=
  let u := st.getD emptyUsage
  { u with reports := u.reports + 1 }

/-- A stored scenario snapshot, as read back by GET /scenarios. Only the
timestamp takes part in the endpoint logic; it is modelled by the
epoch-millisecond value that `new Date(a.timestamp).getTime()` yields.
The remaining body is opaque to the handler. -/
structure ScenarioRec where
  timestamp : ℤ
  body : List (String × JVal)
deriving DecidableEq

/-- The sort comparator of GET /scenarios,
`(a, b) => new Date(b.timestamp).getTime() - new Date(a.timestamp).getTime()`:
`a` precedes `b` exactly when `a`'s timestamp is at least `b`'s. -/
def newestFirst (a b : ScenarioRec) : Prop :=
  b.timestamp ≤ a.timestamp

instance : DecidableRel newestFirst :=
  fun a b => inferInstanceAs (Decidable (b.timestamp ≤ a.timestamp))

/-- GET /scenarios after the prefix scan: `.sort(comparator).slice(0, 10)`.
The store leaves the scan order unspecified, so the input list is
arbitrary; the JavaScript sort is modelled by a sort correct for the same
comparator. -/
def getScenariosResult (l : List ScenarioRec) : List ScenarioRec :=
  (List.insertionSort newestFirst l).take 10

/-- The id of the scenario snapshot written by POST /scenario:
the template string `scenario-${Date.now()}`. -/
def mkScenarioId (nowMs : ℕ) : String :=
  "scenario-" ++ natDecimal nowMs

/-- The id of the report written by POST /generate-report:
the template string `report-${Date.now()}`. -/
def mkReportId (nowMs : ℕ) : String :=
  "report-" ++ natDecimal nowMs

/-- The request body of POST /generate-report, as far as the handler
inspects it: it must carry a `metrics` object (the rest of the body is
spread unchanged into the stored report). -/
structure ReportInput where
  metrics : ReportMetrics
deriving DecidableEq

/-- The enriched report built by POST /generate-report:
`{...reportData, id, timestamp, aiInsights: generateAIInsights(reportData),
projections: generateProjections(reportData)}`. -/
structure Report where
  input : ReportInput
  id : String
  timestamp : String
  aiInsights : List Insight
  projections : List ServerProjEntry
deriving DecidableEq

/-- The report constructed by the POST /generate-report handler from the
request body and the creation instant (`Date.now()` for the id,
`new Date().toISOString()` for the timestamp field). -/
def generateReport (d : ReportInput) (nowMs : ℕ) (nowIso : String) : Report :=
  { input := d
    id := mkReportId nowMs
    timestamp := nowIso
    aiInsights := generateAIInsights d.metrics
    projections := generateProjections d.metrics }

/-- GET /health: `c.json({ status: "ok" })`, no store access. -/
def healthHandler : ℕ × List (String × JVal) :=
  (200, [("status", JVal.jstr "ok")])

/-- GET /usage: on a successful read, 200 with the stored record (or the
zero default on a miss); when the read throws, 500 with
`{scenarios: 0, reports: 0}`. -/
def getUsageHandler (r : Except Unit (Option UsageCounters)) : ℕ × UsageCounters :=
  match r with
  | Except.ok v => (200, v.getD emptyUsage)
  | Except.error _ => (500, emptyUsage)

/-- POST /usage: on a successful write, 200 echoing the body; when the
write throws, 500 with `{error: "Failed to save usage data"}`. -/
def postUsageHandler (b : UsageBody) (w : Except Unit Unit) : ℕ × List (String × JVal) :=
  match w with
  | Except.ok _ => (200, postUsageResponse b)
  | Except.error _ => (500, [("error", JVal.jstr "Failed to save usage data")])

/-- POST /scenario: snapshot write, counter read, counter write in
sequence inside one try block; the first throw reaches the catch, which
answers 500 with `{error: "Failed to save scenario"}`; otherwise 200 with
`{success: true, scenarioId}`. -/
def postScenarioHandler (nowMs : ℕ) (w1 : Except Unit Unit)
    (r : Except Unit (Option UsageCounters)) (w2 : Except Unit Unit) :
    ℕ × List (String × JVal) :=
  match w1 with
  | Except.error _ => (500, [("error", JVal.jstr "Failed to save scenario")])
  | Except.ok _ =>
    match r with
    | Except.error _ => (500, [("error", JVal.jstr "Failed to save scenario")])
    | Except.ok _ =>
      match w2 with
      | Except.error _ => (500, [("error", JVal.jstr "Failed to save scenario")])
      | Except.ok _ =>
          (200, [("success", JVal.jbool true), ("scenarioId", JVal.jstr (mkScenarioId nowMs))])

/-- GET /scenarios: on a successful scan, 200 with the sorted and truncated
records; when the scan throws, 500 with `{scenarios: []}`. -/
def getScenariosHandler (r : Except Unit (List ScenarioRec)) : ℕ × List ScenarioRec :=
  match r with
  | Except.ok l => (200, getScenariosResult l)
  | Except.error _ => (500, [])

/-- The response body of POST /generate-report: either
`{success: true, reportId, report}` or `{error: "Failed to generate report"}`. -/
inductive ReportResp where
  | ok : String → Report → ReportResp
  | err : String → ReportResp
deriving DecidableEq

/-- POST /generate-report: report write, counter read, counter write in
sequence inside one try block; the first throw reaches the catch, which
answers 500; otherwise 200 with the enriched report. -/
def generateReportHandler (d : ReportInput) (nowMs : ℕ) (nowIso : String)
    (w1 : Except Unit Unit) (r : Except Unit (Option UsageCounters))
    (w2 : Except Unit Unit) : ℕ × ReportResp :=
  match w1 with
  | Except.error _ => (500, ReportResp.err "Failed to generate report")
  | Except.ok _ =>
    match r with
    | Except.error _ => (500, ReportResp.err "Failed to generate report")
    | Except.ok _ =>
      match w2 with
      | Except.error _ => (500, ReportResp.err "Failed to generate report")
      | Except.ok _ => (200, ReportResp.ok (mkReportId nowMs) (generateReport d nowMs nowIso))

/-! ### Helper lemmas -/

/-- The numeric value of a decimal digit character. -/
def digitVal (c : Char) : ℕ := c.toNat - 48

/-- Left inverse of `natDecimal`: read the decimal string back. -/
def parseDecimal (s : String) : ℕ :=
  Nat.ofDigits 10 ((s.data.map digitVal).reverse)

theorem digitVal_digitChar : ∀ d, d < 10 → digitVal (Nat.digitChar d) = d := by
  decide

theorem parseDecimal_natDecimal : ∀ n, parseDecimal (natDecimal n) = n := by
  intro n
  by_cases h : n = 0
  · subst h
    rfl
  · unfold natDecimal parseDecimal
    rw [if_neg h]
    have hdata : (String.mk (((Nat.digits 10 n).reverse).map Nat.digitChar)).data
        = ((Nat.digits 10 n).reverse).map Nat.digitChar := rfl
    rw [hdata, List.map_map]
    have hmem : ∀ d ∈ (Nat.digits 10 n).reverse, (digitVal ∘ Nat.digitChar) d = id d := by
      intro d hd
      exact digitVal_digitChar d
        (Nat.digits_lt_base (by norm_num) (List.mem_reverse.mp hd))
    rw [List.map_congr_left hmem, List.map_id, List.reverse_reverse, Nat.ofDigits_digits]

theorem natDecimal_injective : Function.Injective natDecimal :=
  Function.LeftInverse.injective parseDecimal_natDecimal

theorem mkReportId_injective : Function.Injective mkReportId := by
  intro a b h
  have hd : "report-".data ++ (natDecimal a).data = "report-".data ++ (natDecimal b).data := by
    simpa [mkReportId, String.data_append] using congrArg String.data h
  exact natDecimal_injective (String.ext (List.append_cancel_left hd))

theorem projLoopServer_length (burn rev : ℚ) :
    ∀ (k : ℕ) (cb : ℚ) (month : ℕ), (projLoopServer burn rev cb month k).length = k := by
  intro k
  induction k with
  | zero => intro cb month; rfl
  | succ k ih => intro cb month; simp [projLoopServer, ih]

theorem projLoopServer_getElem (burn rev : ℚ) :
    ∀ (k : ℕ) (cb : ℚ) (month i : ℕ), i < k →
      (projLoopServer burn rev cb month k)[i]? =
        some { month := month + i
               cashBalance := max 0 (cb + ((i : ℚ) + 1) * (rev - burn))
               revenue := rev
               expenses := burn
               netFlow := rev - burn } := by
  intro k
  induction k with
  | zero => intro cb month i h; exact absurd h (Nat.not_lt_zero i)
  | succ k ih =>
    intro cb month i h
    cases i with
    | zero =>
      simp only [projLoopServer, List.getElem?_cons_zero, Nat.add_zero, Nat.cast_zero,
        zero_add, one_mul]
    | succ j =>
      have hj : j < k := by omega
      simp only [projLoopServer, List.getElem?_cons_succ]
      rw [ih (cb + (rev - burn)) (month + 1) j hj]
      have h1 : month + 1 + j = month + (j + 1) := by omega
      have h2 : cb + (rev - burn) + ((j : ℚ) + 1) * (rev - burn)
          = cb + (((j + 1 : ℕ) : ℚ) + 1) * (rev - burn) := by
        push_cast
        ring
      rw [h1, h2]

theorem projLoopClient_length (nf rev burn : ℚ) :
    ∀ (k : ℕ) (cb : ℚ) (month : ℕ), (projLoopClient nf rev burn cb month k).length = k := by
  intro k
  induction k with
  | zero => intro cb month; rfl
  | succ k ih => intro cb month; simp [projLoopClient, ih]

theorem projLoopClient_getElem (nf rev burn : ℚ) :
    ∀ (k : ℕ) (cb : ℚ) (month i : ℕ), i < k →
      (projLoopClient nf rev burn cb month k)[i]? =
        some { month := "Month " ++ natDecimal (month + i)
               cash := max 0 (cb + ((i : ℚ) + 1) * nf)
               revenue := rev
               expenses := burn
               netFlow := nf } := by
  intro k
  induction k with
  | zero => intro cb month i h; exact absurd h (Nat.not_lt_zero i)
  | succ k ih =>
    intro cb month i h
    cases i with
    | zero =>
      simp only [projLoopClient, List.getElem?_cons_zero, Nat.add_zero, Nat.cast_zero,
        zero_add, one_mul]
    | succ j =>
      have hj : j < k := by omega
      simp only [projLoopClient, List.getElem?_cons_succ]
      rw [ih (cb + nf) (month + 1) j hj]
      have h1 : month + 1 + j = month + (j + 1) := by omega
      have h2 : cb + nf + ((j : ℚ) + 1) * nf = cb + (((j + 1 : ℕ) : ℚ) + 1) * nf := by
        push_cast
        ring
      rw [h1, h2]

/-- The numeric content of a client projection entry. -/
def clientNums (e : ClientProjEntry) : ℚ × ℚ × ℚ × ℚ :=
  (e.cash, e.revenue, e.expenses, e.netFlow)

/-- The numeric content of a server projection entry. -/
def serverNums (e : ServerProjEntry) : ℚ × ℚ × ℚ × ℚ :=
  (e.cashBalance, e.revenue, e.expenses, e.netFlow)

theorem projLoop_content_eq (burn rev : ℚ) :
    ∀ (k : ℕ) (cb : ℚ) (month : ℕ),
      (projLoopClient (rev - burn) rev burn cb month k).map clientNums =
      (projLoopServer burn rev cb month k).map serverNums := by
  intro k
  induction k with
  | zero => intro cb month; rfl
  | succ k ih =>
    intro cb month
    simp only [projLoopClient, projLoopServer, List.map_cons, ih]
    rfl

theorem exampleBurn : totalMonthlyBurn exampleParams = 350000 := by
  norm_num [totalMonthlyBurn, monthlySalaryCost, exampleParams]

theorem exampleRevenue : monthlyRevenue exampleParams = 15000 := by
  norm_num [monthlyRevenue, exampleParams]

theorem exampleNet : netCashFlow exampleParams = -335000 := by
  rw [netCashFlow, exampleBurn, exampleRevenue]
  norm_num

theorem exampleRunway : runwayMonths exampleParams = 800000 / 350000 := by
  rw [runwayMonths, exampleBurn]
  norm_num [exampleParams]

theorem exampleBreakEven : breakEvenCustomers exampleParams = 2334 := by
  show ⌈totalMonthlyBurn exampleParams / exampleParams.productPrice⌉ = 2334
  rw [exampleBurn]
  norm_num [exampleParams, Int.ceil_eq_iff]

/-! ### Claims -/

/-- Claim C1: for every parameter vector with non-negative components the
Metrics Engine computes monthlyBurn = employees*60000 + marketingBudget +
fixedMonthlyCosts and monthlyRevenue = baseCustomerCount * productPrice
exactly, and on the spec's example input it yields monthlyBurn=350000,
monthlyRevenue=15000, netCashFlow=-335000, runwayMonths=800000/350000,
breakEvenCustomers=2334. -/
theorem metrics_formulas_and_example (p : ScenarioParams)
    (h1 : 0 ≤ p.employees) (h2 : 0 ≤ p.marketingBudget) (h3 : 0 ≤ p.productPrice)
    (h4 : 0 ≤ p.currentCash) (h5 : 0 ≤ p.baseCustomerCount)
    (h6 : 0 ≤ p.fixedMonthlyCosts) :
    totalMonthlyBurn p = p.employees * 60000 + p.marketingBudget + p.fixedMonthlyCosts ∧
    monthlyRevenue p = p.baseCustomerCount * p.productPrice ∧
    totalMonthlyBurn exampleParams = 350000 ∧
    monthlyRevenue exampleParams = 15000 ∧
    netCashFlow exampleParams = -335000 ∧
    runwayMonths exampleParams = 800000 / 350000 ∧
    breakEvenCustomers exampleParams = 2334 :=
  ⟨rfl, rfl, exampleBurn, exampleRevenue, exampleNet, exampleRunway, exampleBreakEven⟩

theorem metrics_formulas_and_example_check :
    ((0 : ℚ) ≤ exampleParams.employees ∧ (0 : ℚ) ≤ exampleParams.marketingBudget ∧
     (0 : ℚ) ≤ exampleParams.productPrice ∧ (0 : ℚ) ≤ exampleParams.currentCash ∧
     (0 : ℚ) ≤ exampleParams.baseCustomerCount ∧ (0 : ℚ) ≤ exampleParams.fixedMonthlyCosts) ∧
    (totalMonthlyBurn exampleParams
        = exampleParams.employees * 60000 + exampleParams.marketingBudget
          + exampleParams.fixedMonthlyCosts ∧
     monthlyRevenue exampleParams = exampleParams.baseCustomerCount * exampleParams.productPrice ∧
     totalMonthlyBurn exampleParams = 350000 ∧
     monthlyRevenue exampleParams = 15000 ∧
     netCashFlow exampleParams = -335000 ∧
     runwayMonths exampleParams = 800000 / 350000 ∧
     breakEvenCustomers exampleParams = 2334) :=
  ⟨⟨by norm_num [exampleParams], by norm_num [exampleParams], by norm_num [exampleParams],
    by norm_num [exampleParams], by norm_num [exampleParams], by norm_num [exampleParams]⟩,
   metrics_formulas_and_example exampleParams (by norm_num [exampleParams])
     (by norm_num [exampleParams]) (by norm_num [exampleParams]) (by norm_num [exampleParams])
     (by norm_num [exampleParams]) (by norm_num [exampleParams])⟩

/-- A parameter vector with a negative marketing budget: monthlyBurn is
-150 and breakEvenCustomers is -1, refuting the unconditional claim that
breakEvenCustomers is always non-negative. -/
def negBurnParams : ScenarioParams :=
  { employees := 0
    marketingBudget := -150
    productPrice := 150
    currentCash := 0
    baseCustomerCount := 0
    fixedMonthlyCosts := 0 }

/-- Claim C2 counterexample: at employees=0, marketingBudget=-150,
productPrice=150 the code computes breakEvenCustomers = ceil(-150/150) =
-1 < 0, so "breakEvenCustomers is always ≥ 0" fails for an arbitrary
parameter vector. -/
theorem breakeven_negative_counterexample :
    breakEvenCustomers negBurnParams = -1 ∧ ¬ (0 ≤ breakEvenCustomers negBurnParams) := by
  have h : totalMonthlyBurn negBurnParams / negBurnParams.productPrice = ((-1 : ℤ) : ℚ) := by
    norm_num [totalMonthlyBurn, monthlySalaryCost, negBurnParams]
  have he : breakEvenCustomers negBurnParams = -1 := by
    show ⌈totalMonthlyBurn negBurnParams / negBurnParams.productPrice⌉ = -1
    rw [h, Int.ceil_intCast]
  exact ⟨he, by rw [he]; norm_num⟩

/-- Claim C2 (amended): runwayMonths is currentCash / monthlyBurn under
the guard monthlyBurn > 0 and the sentinel 999 when monthlyBurn ≤ 0, so
the division only happens under the guard; breakEvenCustomers is
ceil(monthlyBurn / productPrice), and it is non-negative whenever
monthlyBurn ≥ 0 and productPrice > 0. -/
theorem runway_guard_and_breakeven (p : ScenarioParams) :
    (0 < totalMonthlyBurn p → runwayMonths p = p.currentCash / totalMonthlyBurn p) ∧
    (totalMonthlyBurn p ≤ 0 → runwayMonths p = 999) ∧
    breakEvenCustomers p = ⌈totalMonthlyBurn p / p.productPrice⌉ ∧
    (0 ≤ totalMonthlyBurn p → 0 < p.productPrice → 0 ≤ breakEvenCustomers p) := by
  refine ⟨fun h => ?_, fun h => ?_, rfl, fun hb hp => ?_⟩
  · rw [runwayMonths, if_pos h]
  · rw [runwayMonths, if_neg (not_lt.mpr h)]
  · exact Int.ceil_nonneg (div_nonneg hb hp.le)

theorem runway_guard_and_breakeven_check :
    (0 < totalMonthlyBurn exampleParams ∧ 0 < exampleParams.productPrice) ∧
    (runwayMonths exampleParams = exampleParams.currentCash / totalMonthlyBurn exampleParams ∧
     0 ≤ breakEvenCustomers exampleParams) := by
  have hb : 0 < totalMonthlyBurn exampleParams := by
    rw [exampleBurn]
    norm_num
  have hp : 0 < exampleParams.productPrice := by
    norm_num [exampleParams]
  have h := runway_guard_and_breakeven exampleParams
  exact ⟨⟨hb, hp⟩, ⟨h.1 hb, h.2.2.2 hb.le hp⟩⟩

/-- Claim C3: both the client generateProjectionData and the server
generateProjections (fed the same burn, revenue and cash through the
metrics object) produce exactly 12 entries for months 1..12 in increasing
order, entry m holding cash = max(0, currentCash + m * netCashFlow),
revenue = monthlyRevenue and expenses = monthlyBurn, unchanged from month
to month. -/
theorem projection_closed_form (p : ScenarioParams) (i : ℕ) (h : i < 12) :
    (generateProjectionData p).length = 12 ∧
    (generateProjections (metricsOf p)).length = 12 ∧
    (generateProjectionData p)[i]? =
      some { month := "Month " ++ natDecimal (i + 1)
             cash := max 0 (p.currentCash + ((i : ℚ) + 1) * netCashFlow p)
             revenue := monthlyRevenue p
             expenses := totalMonthlyBurn p
             netFlow := netCashFlow p } ∧
    (generateProjections (metricsOf p))[i]? =
      some { month := i + 1
             cashBalance := max 0 (p.currentCash + ((i : ℚ) + 1) * netCashFlow p)
             revenue := monthlyRevenue p
             expenses := totalMonthlyBurn p
             netFlow := netCashFlow p } := by
  refine ⟨projLoopClient_length _ _ _ 12 _ 1, projLoopServer_length _ _ 12 _ 1, ?_, ?_⟩
  · show (projLoopClient (netCashFlow p) (monthlyRevenue p) (totalMonthlyBurn p)
      p.currentCash 1 12)[i]? = _
    rw [projLoopClient_getElem _ _ _ 12 _ 1 i h, Nat.add_comm 1 i]
  · show (projLoopServer (totalMonthlyBurn p) (monthlyRevenue p)
      p.currentCash 1 12)[i]? = _
    rw [projLoopServer_getElem _ _ 12 _ 1 i h, Nat.add_comm 1 i]
    rfl

theorem projection_closed_form_check :
    (0 : ℕ) < 12 ∧
    ((generateProjectionData exampleParams).length = 12 ∧
     (generateProjections (metricsOf exampleParams)).length = 12 ∧
     (generateProjectionData exampleParams)[(0 : ℕ)]? =
       some { month := "Month " ++ natDecimal (0 + 1)
              cash := max 0 (exampleParams.currentCash
                + (((0 : ℕ) : ℚ) + 1) * netCashFlow exampleParams)
              revenue := monthlyRevenue exampleParams
              expenses := totalMonthlyBurn exampleParams
              netFlow := netCashFlow exampleParams } ∧
     (generateProjections (metricsOf exampleParams))[(0 : ℕ)]? =
       some { month := 0 + 1
              cashBalance := max 0 (exampleParams.currentCash
                + (((0 : ℕ) : ℚ) + 1) * netCashFlow exampleParams)
              revenue := monthlyRevenue exampleParams
              expenses := totalMonthlyBurn exampleParams
              netFlow := netCashFlow exampleParams }) :=
  ⟨by norm_num, projection_closed_form exampleParams 0 (by norm_num)⟩

/-- Claim C4 counterexample: POST /usage overwrites the stored record with
the request body values, so with stored counters {scenarios: 5, reports: 3}
and body {scenarios: 0, reports: 0} both counters decrease. -/
theorem usage_overwrite_counterexample :
    (postUsageStored { scenarios := 0, reports := 0 } "2026-01-01T00:00:00.000Z").scenarios
        < (UsageCounters.mk 5 3 none).scenarios ∧
    (postUsageStored { scenarios := 0, reports := 0 } "2026-01-01T00:00:00.000Z").reports
        < (UsageCounters.mk 5 3 none).reports := by
  constructor <;> decide

/-- Claim C4 (amended): the counter updates embedded in POST /scenario and
POST /generate-report never decrease either stored counter; POST /usage,
by contrast, is a blind overwrite with the client-supplied values and need
not be monotone. -/
theorem counter_updates_monotone (st : Option UsageCounters) :
    (st.getD emptyUsage).scenarios ≤ (scenarioCounterUpdate st).scenarios ∧
    (st.getD emptyUsage).reports ≤ (scenarioCounterUpdate st).reports ∧
    (st.getD emptyUsage).scenarios ≤ (reportCounterUpdate st).scenarios ∧
    (st.getD emptyUsage).reports ≤ (reportCounterUpdate st).reports ∧
    (∀ (b : UsageBody) (now : String),
      postUsageStored b now = { scenarios := b.scenarios, reports := b.reports
                                lastUpdated := some now }) := by
  refine ⟨?_, le_refl _, le_refl _, ?_, fun b now => rfl⟩ <;>
    simp only [scenarioCounterUpdate, reportCounterUpdate] <;> omega

/-- Claim C5 counterexample: on the example scenario the client
recommendation generator produces one entry while the server insight
generator produces three, with disjoint message texts, so the two insight
generators are not equivalent functions of the input. -/
theorem insight_generators_differ :
    (getAIRecommendations exampleParams).length = 1 ∧
    (generateAIInsights (metricsOf exampleParams)).length = 3 ∧
    (getAIRecommendations exampleParams).map Recommendation.message ≠
      (generateAIInsights (metricsOf exampleParams)).map Insight.message := by
  have h1 : runwayMonths exampleParams < 3 := by
    rw [exampleRunway]
    norm_num
  have h2 : ¬ (netCashFlow exampleParams ≥ 0) := by
    rw [exampleNet]
    norm_num
  have h3 : ¬ (exampleParams.employees > 10 ∧ runwayMonths exampleParams < 6) := by
    norm_num [exampleParams]
  have h4 : ¬ (exampleParams.productPrice < 100 ∧ breakEvenCustomers exampleParams > 500) := by
    norm_num [exampleParams]
  have h5 : ¬ ((metricsOf exampleParams).monthlyRevenue
      > (metricsOf exampleParams).totalMonthlyBurn) := by
    show ¬ (monthlyRevenue exampleParams > totalMonthlyBurn exampleParams)
    rw [exampleRevenue, exampleBurn]
    norm_num
  have h6 : (metricsOf exampleParams).runwayMonths < 6 := by
    show runwayMonths exampleParams < 6
    rw [exampleRunway]
    norm_num
  have h7 : (metricsOf exampleParams).productPrice < 200 := by
    show exampleParams.productPrice < 200
    norm_num [exampleParams]
  simp only [getAIRecommendations, generateAIInsights, if_pos h1, if_neg h2, if_neg h3,
    if_neg h4, if_neg h5, if_pos h6, if_pos h7]
  refine ⟨rfl, rfl, ?_⟩
  decide

/-- Claim C5 (amended): given identical scenario parameters and derived
metrics, the client and server projection generators agree on the numeric
content (cash, revenue, expenses, netFlow) of every month; the two insight
generators, however, implement different rule sets and messages and are
not equivalent. -/
theorem projection_generators_equivalent (p : ScenarioParams) :
    (generateProjectionData p).map clientNums =
      (generateProjections (metricsOf p)).map serverNums :=
  projLoop_content_eq (totalMonthlyBurn p) (monthlyRevenue p) 12 p.currentCash 1

/-- Claim C6: the GET /scenarios pipeline (prefix scan, sort newest first,
truncate to 10) returns at most 10 records whose timestamps are
non-increasing, for every stored record set in every scan order. -/
theorem scenarios_sorted_truncated (l : List ScenarioRec) :
    (getScenariosResult l).length ≤ 10 ∧
    List.Sorted newestFirst (getScenariosResult l) := by
  constructor
  · show ((List.insertionSort newestFirst l).take 10).length ≤ 10
    rw [List.length_take]
    exact min_le_left _ _
  · haveI : IsTotal ScenarioRec newestFirst := ⟨fun a b => le_total b.timestamp a.timestamp⟩
    haveI : IsTrans ScenarioRec newestFirst :=
      ⟨fun a b c hab hbc => le_trans hbc hab⟩
    exact List.Pairwise.sublist (List.take_sublist 10 _)
      (List.sorted_insertionSort newestFirst l)

/-- Claim C7 counterexample: a successful POST /usage response is exactly
{success, scenarios, reports}; the server timestamp goes into the stored
record's lastUpdated field and appears nowhere in the response body. -/
theorem post_usage_no_timestamp_in_response :
    (postUsageStored { scenarios := 7, reports := 4 } "2026-01-01T00:00:00.000Z").lastUpdated
      = some "2026-01-01T00:00:00.000Z" ∧
    ¬ ∃ kv ∈ postUsageResponse { scenarios := 7, reports := 4 },
        kv.2 = JVal.jstr "2026-01-01T00:00:00.000Z" := by
  refine ⟨rfl, ?_⟩
  decide

/-- Claim C7 (amended): a successful POST /usage echoes the input counters
together with a success flag; the server timestamp is recorded in the
stored record's lastUpdated field but is not part of the response body. -/
theorem post_usage_echo (b : UsageBody) (now : String) :
    postUsageResponse b =
      [("success", JVal.jbool true), ("scenarios", JVal.jnum b.scenarios),
       ("reports", JVal.jnum b.reports)] ∧
    (postUsageStored b now).scenarios = b.scenarios ∧
    (postUsageStored b now).reports = b.reports ∧
    (postUsageStored b now).lastUpdated = some now :=
  ⟨rfl, rfl, rfl, rfl⟩

/-- Claim C8: report generation is deterministic in content (identical
input and identical creation instant give identical reports), and two
calls at different creation instants always get different report ids,
because the id embeds the decimal rendering of the instant. -/
theorem report_deterministic_fresh_ids :
    (∀ (d1 d2 : ReportInput) (t1 t2 : ℕ) (s1 s2 : String),
        d1 = d2 → t1 = t2 → s1 = s2 →
          generateReport d1 t1 s1 = generateReport d2 t2 s2) ∧
    (∀ (d1 d2 : ReportInput) (t1 t2 : ℕ) (s1 s2 : String),
        t1 ≠ t2 → (generateReport d1 t1 s1).id ≠ (generateReport d2 t2 s2).id) := by
  constructor
  · rintro d1 d2 t1 t2 s1 s2 rfl rfl rfl
    rfl
  · intro d1 d2 t1 t2 s1 s2 hne h
    exact hne (mkReportId_injective h)

/-- The report input built from the example scenario metrics. -/
def sampleReportInput : ReportInput :=
  { metrics := metricsOf exampleParams }

theorem report_deterministic_fresh_ids_check :
    (sampleReportInput = sampleReportInput ∧ (1700000000000 : ℕ) = 1700000000000 ∧
      "2023-11-14T22:13:20.000Z" = "2023-11-14T22:13:20.000Z" ∧
      (1700000000000 : ℕ) ≠ 1700000000001) ∧
    (generateReport sampleReportInput 1700000000000 "2023-11-14T22:13:20.000Z"
        = generateReport sampleReportInput 1700000000000 "2023-11-14T22:13:20.000Z" ∧
     (generateReport sampleReportInput 1700000000000 "2023-11-14T22:13:20.000Z").id
        ≠ (generateReport sampleReportInput 1700000000001 "2023-11-14T22:13:21.000Z").id) :=
  ⟨⟨rfl, rfl, rfl, by norm_num⟩,
   report_deterministic_fresh_ids.1 _ _ _ _ _ _ rfl rfl rfl,
   report_deterministic_fresh_ids.2 _ _ _ _ _ _ (by norm_num)⟩

/-- Claim C9: every endpoint answers 200 or 500 and nothing else; a store
failure anywhere in a handler is caught and answered with 500 carrying the
endpoint's safe default ({scenarios: 0, reports: 0} for GET /usage,
{scenarios: []} for GET /scenarios) or a JSON error body, and a 500 body
never carries a success flag for work already done. -/
theorem api_statuses_and_defaults :
    healthHandler = (200, [("status", JVal.jstr "ok")]) ∧
    (∀ r, (getUsageHandler r).1 = 200 ∨ (getUsageHandler r).1 = 500) ∧
    (∀ v, getUsageHandler (Except.ok v) = (200, v.getD emptyUsage)) ∧
    (∀ e, getUsageHandler (Except.error e) = (500, emptyUsage)) ∧
    (∀ b w, (postUsageHandler b w).1 = 200 ∨ (postUsageHandler b w).1 = 500) ∧
    (∀ b, postUsageHandler b (Except.ok ()) = (200, postUsageResponse b)) ∧
    (∀ b e, postUsageHandler b (Except.error e)
        = (500, [("error", JVal.jstr "Failed to save usage data")])) ∧
    (∀ t w1 r w2, (postScenarioHandler t w1 r w2).1 = 200 ∨
        (postScenarioHandler t w1 r w2).1 = 500) ∧
    (∀ t e r w2, postScenarioHandler t (Except.error e) r w2
        = (500, [("error", JVal.jstr "Failed to save scenario")])) ∧
    (∀ t e w2, postScenarioHandler t (Except.ok ()) (Except.error e) w2
        = (500, [("error", JVal.jstr "Failed to save scenario")])) ∧
    (∀ t v e, postScenarioHandler t (Except.ok ()) (Except.ok v) (Except.error e)
        = (500, [("error", JVal.jstr "Failed to save scenario")])) ∧
    (∀ t v, postScenarioHandler t (Except.ok ()) (Except.ok v) (Except.ok ())
        = (200, [("success", JVal.jbool true), ("scenarioId", JVal.jstr (mkScenarioId t))])) ∧
    (∀ r, (getScenariosHandler r).1 = 200 ∨ (getScenariosHandler r).1 = 500) ∧
    (∀ l, getScenariosHandler (Except.ok l) = (200, getScenariosResult l)) ∧
    (∀ e, getScenariosHandler (Except.error e) = (500, [])) ∧
    (∀ d t s w1 r w2, (generateReportHandler d t s w1 r w2).1 = 200 ∨
        (generateReportHandler d t s w1 r w2).1 = 500) ∧
    (∀ d t s e r w2, generateReportHandler d t s (Except.error e) r w2
        = (500, ReportResp.err "Failed to generate report")) ∧
    (∀ d t s e w2, generateReportHandler d t s (Except.ok ()) (Except.error e) w2
        = (500, ReportResp.err "Failed to generate report")) ∧
    (∀ d t s v e, generateReportHandler d t s (Except.ok ()) (Except.ok v) (Except.error e)
        = (500, ReportResp.err "Failed to generate report")) ∧
    (∀ d t s v, generateReportHandler d t s (Except.ok ()) (Except.ok v) (Except.ok ())
        = (200, ReportResp.ok (mkReportId t) (generateReport d t s))) := by
  refine ⟨rfl, ?_, fun v => rfl, fun e => rfl, ?_, fun b => rfl, fun b e => rfl,
    ?_, fun t e r w2 => rfl, fun t e w2 => rfl, fun t v e => rfl, fun t v => rfl,
    ?_, fun l => rfl, fun e => rfl,
    ?_, fun d t s e r w2 => rfl, fun d t s e w2 => rfl, fun d t s v e => rfl,
    fun d t s v => rfl⟩
  · intro r
    cases r with
    | error e => exact Or.inr rfl
    | ok v => exact Or.inl rfl
  · intro b w
    cases w with
    | error e => exact Or.inr rfl
    | ok u => exact Or.inl rfl
  · intro t w1 r w2
    cases w1 with
    | error e => exact Or.inr rfl
    | ok u =>
      cases r with
      | error e => exact Or.inr rfl
      | ok v =>
        cases w2 with
        | error e => exact Or.inr rfl
        | ok u2 => exact Or.inl rfl
  · intro r
    cases r with
    | error e => exact Or.inr rfl
    | ok l => exact Or.inl rfl
  · intro d t s w1 r w2
    cases w1 with
    | error e => exact Or.inr rfl
    | ok u =>
      cases r with
      | error e => exact Or.inr rfl
      | ok v =>
        cases w2 with
        | error e => exact Or.inr rfl
        | ok u2 => exact Or.inl rfl

/-- Claim C10: the counter update of POST /scenario touches only the
scenarios field of the stored record — reports and lastUpdated keep their
previous values — and the update of POST /generate-report touches only the
reports field, leaving scenarios and lastUpdated unchanged. -/
theorem counter_update_frame (u : UsageCounters) :
    scenarioCounterUpdate (some u) = { u with scenarios := u.scenarios + 1 } ∧
    (scenarioCounterUpdate (some u)).reports = u.reports ∧
    (scenarioCounterUpdate (some u)).lastUpdated = u.lastUpdated ∧
    reportCounterUpdate (some u) = { u with reports := u.reports + 1 } ∧
    (reportCounterUpdate (some u)).scenarios = u.scenarios ∧
    (reportCounterUpdate (some u)).lastUpdated = u.lastUpdated :=
  ⟨rfl, rfl, rfl, rfl, rfl, rfl⟩
